import Mathlib

/-!
Verification development for the media ingestion pipeline of the Goklyn
repository (gallery controller, cloudinary gateway, thumbnail and metadata
helpers).  The JavaScript functions are shallowly embedded as pure Lean
functions; external effects (sharp, exifr, ffprobe, ffmpeg, cloudinary,
the database) are driven by explicit environment records describing the
outcome of each external call, and the mutable world (local filesystem,
remote store, call trace) is threaded as an explicit state value.
-/

namespace Goklyn

/-- Error messages raised by library calls are modelled as plain strings. -/
abbrev Err := String

/-- The `ApiError(message, statusCode)` class used by the backend. -/
structure ApiErr where
  message : String
  statusCode : Nat
deriving Repr, DecidableEq

/-- Constructor mirroring `new ApiError(message, statusCode)`. -/
def apiErr (message : String) (statusCode : Nat) : ApiErr :=
  { message := message, statusCode := statusCode }

/-- Splitting loop for `jsSplit`, structural over the character list so that
closed instances reduce inside the kernel. -/
def jsSplitAux (c : Char) : List Char → List Char → List String
  | [], acc => [String.mk acc.reverse]
  | x :: xs, acc =>
      if x == c then String.mk acc.reverse :: jsSplitAux c xs []
      else jsSplitAux c xs (x :: acc)

/-- JavaScript `s.split(c)` for a one-character separator (the only kind the
code uses). -/
def jsSplit (c : Char) (s : String) : List String :=
  jsSplitAux c s.data []

/-- JavaScript `s.startsWith(pre)`. -/
def jsStartsWith (s pre : String) : Bool :=
  pre.data.isPrefixOf s.data

/-- The whitespace characters `String.prototype.trim` strips (the ones that
can occur here). -/
def isJsSpace (c : Char) : Bool :=
  c == ' ' || c == '\t' || c == '\n' || c == '\r'

/-- JavaScript `s.trim()`. -/
def jsTrim (s : String) : String :=
  String.mk (((s.data.dropWhile isJsSpace).reverse.dropWhile isJsSpace).reverse)

/-- Drop the first occurrence of a character, as `s.replace('.', '')` does
for a one-character pattern. -/
def removeFirst (c : Char) : List Char → List Char
  | [] => []
  | x :: xs => if x == c then xs else x :: removeFirst c xs

/-- A multer upload record: `req.file` / an element of `req.files`. -/
structure MulterFile where
  path : String
  mimetype : String
  originalname : String
  size : Nat
deriving Repr, DecidableEq

/-- The two media kinds the gallery controller distinguishes. -/
inductive MediaType
  | image
  | video
deriving Repr, DecidableEq

/-- `mimetype.split('/')[0]`. -/
def mimePrefix (m : String) : String :=
  (jsSplit '/' m).headD ""

/-- `fileType === 'image' ? 'image' : 'video'` — every non-image MIME prefix
falls through to `'video'`. -/
def mediaTypeOf (m : String) : MediaType :=
  if mimePrefix m == "image" then MediaType.image else MediaType.video

/-- The world state threaded through the pipeline: the local filesystem
(`fsPaths` is the list of existing file paths), the remote store
(`uploaded` is the list of public ids held by the provider), and the
ordered log of external calls that were issued. -/
structure St where
  fsPaths : List String
  uploaded : List String
  trace : List String
deriving Repr, DecidableEq

/-! ## Media inspector: `extractMetadata` -/

/-- GPS point assembled from exif latitude/longitude (lines 217-221 of the
gallery controller): `coordinates: [longitude, latitude]`. -/
structure GpsLocation where
  coordinates : Rat × Rat
  name : Option String
deriving Repr, DecidableEq

/-- The `metadata.exif` object built by `extractMetadata`. -/
structure ExifInfo where
  cameraMake : Option String
  cameraModel : Option String
  focalLength : Option String
  aperture : Option String
  shutterSpeed : Option String
  iso : Option Nat
  takenAt : Option String
  location : Option GpsLocation
deriving Repr, DecidableEq

/-- Raw fields of the object resolved by `exifr.parse(filePath)`. -/
structure ExifRaw where
  Make : Option String := none
  Model : Option String := none
  FocalLength : Option Rat := none
  FNumber : Option Rat := none
  ExposureTime : Option Rat := none
  isoValue : Option Nat := none
  DateTimeOriginal : Option String := none
  CreateDate : Option String := none
  latitude : Option Rat := none
  longitude : Option Rat := none
  GPSAreaInformation : Option String := none
deriving Repr, DecidableEq

/-- JavaScript truthiness of a possibly-missing number: `undefined` and `0`
are falsy. -/
def jsTruthyQ : Option Rat → Bool
  | none => false
  | some v => !(v == 0)

/-- JavaScript `a || b` on possibly-missing strings (the empty string is
falsy). -/
def jsOrOpt : Option String → Option String → Option String
  | some s, b => if s == "" then b else some s
  | none, b => b

/-- JavaScript `a || null` on a possibly-missing string. -/
def jsOrNull : Option String → Option String
  | some s => if s == "" then none else some s
  | none => none

/-- JavaScript `a || d` where `d` is a string default. -/
def jsOrStr : Option String → String → String
  | some s, d => if s == "" then d else s
  | none, d => d

/-- The `metadata.exif = { ... }` assembly from the resolved exif object
(gallery controller lines 209-222). -/
def mkExifInfo (e : ExifRaw) : ExifInfo :=
  { cameraMake := e.Make
    cameraModel := e.Model
    focalLength := e.FocalLength.map (fun f => toString f ++ "mm")
    aperture := e.FNumber.map (fun n => "f/" ++ toString n)
    shutterSpeed := e.ExposureTime.map (fun t => toString t ++ "s")
    iso := e.isoValue
    takenAt := jsOrOpt e.DateTimeOriginal e.CreateDate
    location :=
      if jsTruthyQ e.latitude && jsTruthyQ e.longitude then
        some { coordinates := (e.longitude.getD 0, e.latitude.getD 0)
               name := jsOrNull e.GPSAreaInformation }
      else none }

/-- Either kind of `metadata.aspectRatio` value: `meta.width / meta.height`
for images, the `display_aspect_ratio` string for videos. -/
inductive AspectRatio
  | ofDims (width height : Nat)
  | dar (s : String)
deriving Repr, DecidableEq

/-- The `metadata` object assembled by `extractMetadata`; every key is
optional because the function may return a partially-filled (or empty)
object. -/
structure Metadata where
  width : Option Nat := none
  height : Option Nat := none
  format : Option String := none
  size : Option Nat := none
  aspectRatio : Option AspectRatio := none
  duration : Option Int := none
  exif : Option ExifInfo := none
deriving Repr, DecidableEq

/-- Result of `await sharp(filePath).metadata()`. -/
structure SharpMeta where
  width : Nat
  height : Nat
  format : String
deriving Repr, DecidableEq

/-- Outcome of `await exifr.parse(filePath)`: an object, a null/undefined
result (no exif block), or a rejection. -/
inductive ExifParseOutcome
  | ok (e : ExifRaw)
  | nullResult
  | raise (msg : String)
deriving Repr, DecidableEq

/-- One entry of `probeData.streams`. -/
structure StreamInfo where
  codec_type : String
  width : Nat
  height : Nat
  display_aspect_ratio : String
deriving Repr, DecidableEq

/-- `probeData.format`. -/
structure ProbeFormat where
  duration : Rat
deriving Repr, DecidableEq

/-- Result of `await ffprobe(filePath)`. -/
structure ProbeData where
  streams : List StreamInfo
  format : ProbeFormat
deriving Repr, DecidableEq

/-- Outcomes of the external calls `extractMetadata` can issue. -/
structure InspectEnv where
  sharpMetadata : Except Err SharpMeta
  statSize : Except Err Nat
  exifParse : ExifParseOutcome
  ffprobe : Except Err ProbeData

/-- `path.extname(p)`: the extension of the last path segment, from its last
dot; empty when the segment has no dot or only a leading dot. -/
def extname (p : String) : String :=
  let base := (jsSplit '/' p).getLastD ""
  match jsSplit '.' base with
  | [] => ""
  | [_] => ""
  | "" :: rest =>
      if rest.length == 1 then "" else "." ++ (("" :: rest).getLastD "")
  | parts => "." ++ (parts.getLastD "")

/-- `path.extname(filePath).replace('.', '')`. -/
def extFormat (p : String) : String :=
  String.mk (removeFirst '.' (extname p).data)

/-- `path.parse(p).name`: the last path segment without its extension. -/
def parsedName (p : String) : String :=
  let base := (jsSplit '/' p).getLastD ""
  base.dropRight (extname base).length

/-- Shallow embedding of the gallery controller helper `extractMetadata`
(lines 192-243).  The whole body sits in a single `try/catch` whose handler
logs and returns `{}`; consequently any rejection — including an exif
parse failure after the structural fields were read — discards the entire
metadata object.  The video branch only fills any field when a stream with
`codec_type === 'video'` exists.  The returned state logs the external
calls that were issued. -/
def extractMetadata (env : InspectEnv) (st : St) (filePath : String)
    (mediaType : MediaType) : St × Metadata :=
  match mediaType with
  | MediaType.image =>
    let st1 : St := { st with trace := st.trace ++ ["sharp-metadata"] }
    match env.sharpMetadata with
    | Except.error _ => (st1, {})
    | Except.ok meta =>
      match env.statSize with
      | Except.error _ => (st1, {})
      | Except.ok size =>
        let base : Metadata :=
          { width := some meta.width
            height := some meta.height
            format := some meta.format
            size := some size
            aspectRatio := some (AspectRatio.ofDims meta.width meta.height) }
        let st2 : St := { st1 with trace := st1.trace ++ ["exifr-parse"] }
        match env.exifParse with
        | ExifParseOutcome.raise _ => (st2, {})
        | ExifParseOutcome.nullResult => (st2, base)
        | ExifParseOutcome.ok e => (st2, { base with exif := some (mkExifInfo e) })
  | MediaType.video =>
    let st1 : St := { st with trace := st.trace ++ ["ffprobe"] }
    match env.ffprobe with
    | Except.error _ => (st1, {})
    | Except.ok probe =>
      match probe.streams.find? (fun s => s.codec_type == "video") with
      | none => (st1, {})
      | some vs =>
        match env.statSize with
        | Except.error _ => (st1, {})
        | Except.ok size =>
          (st1,
            { width := some vs.width
              height := some vs.height
              duration := some probe.format.duration.floor
              format := some (extFormat filePath)
              size := some size
              aspectRatio := some (AspectRatio.dar vs.display_aspect_ratio) })

/-! ## Thumbnail generator: `generateThumbnail` -/

/-- Outcomes of the external calls `generateThumbnail` can issue. -/
structure ThumbEnv where
  sharpResize : Except Err Unit
  ffmpegScreenshot : Except Err Unit
  renameOk : Except Err Unit

/-- ``path.join('/tmp', `thumb-${Date.now()}.jpg`)`` — the only varying
component of the temp path is the millisecond timestamp. -/
def thumbTempPath (now : Nat) : String :=
  "/tmp/" ++ "thumb-" ++ toString now ++ ".jpg"

/-- The fixed path the ffmpeg `screenshots` call writes before the rename:
`filename: 'thumbnail-%i.jpg'` in folder `/tmp` with one timestamp. -/
def ffmpegFixedPath : String := "/tmp/thumbnail-1.jpg"

/-- Shallow embedding of the gallery controller helper `generateThumbnail`
(lines 246-276).  Any rejection is caught, logged and turned into `null`
(`none`); on success the thumbnail file is created at `thumbTempPath now`
(the video branch first writes the fixed `'/tmp/thumbnail-1.jpg'` and then
renames it). -/
def generateThumbnail (env : ThumbEnv) (st : St) (now : Nat) (filePath : String)
    (mediaType : MediaType) : St × Option String :=
  let thumbnailPath := thumbTempPath now
  match mediaType with
  | MediaType.image =>
    let st1 : St := { st with trace := st.trace ++ ["sharp-resize"] }
    match env.sharpResize with
    | Except.ok _ =>
        ({ st1 with fsPaths := st1.fsPaths ++ [thumbnailPath] }, some thumbnailPath)
    | Except.error _ => (st1, none)
  | MediaType.video =>
    let st1 : St := { st with trace := st.trace ++ ["ffmpeg-screenshots"] }
    match env.ffmpegScreenshot with
    | Except.error _ => (st1, none)
    | Except.ok _ =>
      let st2 : St := { st1 with fsPaths := st1.fsPaths ++ [ffmpegFixedPath] }
      match env.renameOk with
      | Except.error _ => (st2, none)
      | Except.ok _ =>
          ({ st2 with
              fsPaths := (st2.fsPaths.filter (fun q => q != ffmpegFixedPath))
                ++ [thumbnailPath] },
            some thumbnailPath)

/-! ## Remote storage gateway: `uploadToCloudinary` / `deleteFromCloudinary`
(backend/utils/cloudinary.js) -/

/-- The object resolved by `cloudinary.uploader.upload` (the fields the
wrapper returns). -/
structure CloudUploadResult where
  public_id : String
  secure_url : String
  format : String
  bytes : Nat
  width : Nat
  height : Nat
deriving Repr, DecidableEq

/-- Outcome of the provider call `uploadPromise(file.path, ...)`. -/
structure UploadEnv where
  uploadPromise : Except Err CloudUploadResult

/-- The `file` argument of `uploadToCloudinary`.  The function's doc comment
expects a multer file object, but the gallery controller passes the bare
path string (`req.file.path` / `thumbnailPath`) instead; property reads on a
string (`file.size`, `file.mimetype`, `file.path`) yield `undefined`. -/
inductive UploadArg
  | pathStr (p : String)
  | fileObj (f : MulterFile)
deriving Repr, DecidableEq

/-- JavaScript falsiness of the `file` argument: only the empty string is
falsy (objects are always truthy). -/
def UploadArg.jsFalsy : UploadArg → Bool
  | UploadArg.pathStr p => p == ""
  | UploadArg.fileObj _ => false

/-- `file.size` — `undefined` on a string argument. -/
def UploadArg.sizeProp : UploadArg → Option Nat
  | UploadArg.pathStr _ => none
  | UploadArg.fileObj f => some f.size

/-- `file.mimetype` — `undefined` on a string argument. -/
def UploadArg.mimetypeProp : UploadArg → Option String
  | UploadArg.pathStr _ => none
  | UploadArg.fileObj f => some f.mimetype

/-- `file.path` — `undefined` on a string argument. -/
def UploadArg.pathProp : UploadArg → Option String
  | UploadArg.pathStr _ => none
  | UploadArg.fileObj f => some f.path

/-- `const maxSize = 5 * 1024 * 1024`. -/
def maxSize : Nat := 5 * 1024 * 1024

/-- `const allowedTypes = [...]` in `uploadToCloudinary`. -/
def allowedTypes : List String :=
  ["image/jpeg", "image/png", "image/webp", "image/gif"]

/-- JavaScript `file.size > maxSize`: comparing `undefined` is false. -/
def jsGtMax : Option Nat → Bool
  | none => false
  | some n => decide (n > maxSize)

/-- JavaScript `allowedTypes.includes(file.mimetype)`: membership of
`undefined` is false. -/
def jsIncludes (l : List String) : Option String → Bool
  | none => false
  | some t => l.contains t

/-- The `catch` block of `uploadToCloudinary` (lines 186-198): delete the
temp file if `file?.path` names an existing file (swallowing unlink
errors), then rethrow as an `ApiError`. -/
def uploadCatch (st : St) (file : UploadArg) (e : ApiErr) :
    St × Except ApiErr CloudUploadResult :=
  let st1 :=
    match file.pathProp with
    | some p =>
        if p ∈ st.fsPaths then
          { st with fsPaths := st.fsPaths.filter (fun q => q != p) }
        else st
    | none => st
  (st1, Except.error e)

/-- Shallow embedding of `uploadToCloudinary(file, folder)`
(backend/utils/cloudinary.js lines 142-199).  Guards run in source order:
missing/falsy argument, the 5MB size cap, the image-only mimetype
whitelist; only then is the provider call issued (logged in the trace and,
on success, recorded in `uploaded`).  On the success path
`await fs.promises.unlink(file.path)` has no handler, so an unlink failure
is itself routed to the catch block and the call returns an error even
though the upload happened. -/
def uploadToCloudinary (env : UploadEnv) (st : St) (file : UploadArg)
    (folder : String) : St × Except ApiErr CloudUploadResult :=
  if file.jsFalsy then
    uploadCatch st file (apiErr "No file provided" 400)
  else if jsGtMax file.sizeProp then
    uploadCatch st file (apiErr "File size exceeds 5MB limit" 400)
  else if !(jsIncludes allowedTypes file.mimetypeProp) then
    uploadCatch st file (apiErr "Invalid file type. Only images are allowed" 400)
  else
    let st1 : St := { st with trace := st.trace ++ ["cloudinary-upload:" ++ folder] }
    match env.uploadPromise with
    | Except.error msg => uploadCatch st1 file (apiErr msg 500)
    | Except.ok result =>
      let st2 : St := { st1 with uploaded := st1.uploaded ++ [result.public_id] }
      match file.pathProp with
      | some p =>
          if p ∈ st2.fsPaths then
            ({ st2 with fsPaths := st2.fsPaths.filter (fun q => q != p) },
              Except.ok result)
          else
            uploadCatch st2 file (apiErr "ENOENT: no such file or directory" 500)
      | none =>
          uploadCatch st2 file (apiErr "The path argument is undefined" 500)

/-- Outcome of the provider call inside `deleteFromCloudinary`: either our
10s race timer fires first, or the destroy call rejects, or the provider
answers (found/not found is then determined by the remote store). -/
structure DeleteEnv where
  timesOut : Bool
  destroyFails : Option String
deriving Repr, DecidableEq

/-- The object `deleteFromCloudinary` returns:
`result.result` is `'ok'` / `'not found'` from the provider, or `'error'`
from the catch block. -/
structure DeleteResult where
  result : String
  message : Option String := none
deriving Repr, DecidableEq

/-- The URL-parsing prelude of `deleteFromCloudinary` (lines 216-230):
split on `/`, take the last segment without extension, and when an
`upload` segment exists at a positive index prepend the folder segments
found two positions after it (the version segment is skipped). -/
def parsePublicId (publicId : String) : String :=
  if jsStartsWith publicId "http" then
    let urlParts := jsSplit '/' publicId
    let fileName := urlParts.getLastD ""
    let idBase := (jsSplit '.' fileName).headD ""
    match urlParts.findIdx? (fun part => part == "upload") with
    | some folderIndex =>
        if 0 < folderIndex then
          String.intercalate "/" (((urlParts.drop (folderIndex + 2)).dropLast) ++ [idBase])
        else idBase
    | none => idBase
  else publicId

/-- Shallow embedding of `deleteFromCloudinary(publicId)`
(backend/utils/cloudinary.js lines 206-271).  The function never throws:
its own catch converts any failure (missing id, timeout, provider error)
into a returned `{ result: 'error', message }`; a provider answer of
`'not found'` is logged as a warning and returned as-is. -/
def deleteFromCloudinary (env : DeleteEnv) (st : St) (publicId : String) :
    St × DeleteResult :=
  if publicId == "" then
    (st, { result := "error", message := some "No public ID provided" })
  else
    let idToDelete := parsePublicId publicId
    let st1 : St := { st with trace := st.trace ++ ["cloudinary-destroy"] }
    if env.timesOut then
      (st1, { result := "error"
              message := some "Cloudinary delete operation timed out after 10 seconds" })
    else
      match env.destroyFails with
      | some msg => (st1, { result := "error", message := some msg })
      | none =>
          if idToDelete ∈ st1.uploaded then
            ({ st1 with uploaded := st1.uploaded.filter (fun q => q != idToDelete) },
              { result := "ok" })
          else (st1, { result := "not found" })

/-! ## Ingestion orchestrator: `createGalleryItem` -/

/-- The outcomes of every external call one ingestion run can issue, plus
the `GalleryItem.create` database outcome. -/
structure Env where
  inspect : InspectEnv
  thumb : ThumbEnv
  thumbUpload : UploadEnv
  mainUpload : UploadEnv
  dbCreate : Except Err Unit

/-- The relevant fields of `req.body` for `createGalleryItem`. -/
structure ReqBody where
  title : String := ""
  description : Option String := none
  album : Option String := none
  isFeatured : Option String := none
  status : Option String := none
  tags : Option String := none
deriving Repr, DecidableEq

/-- `tags ? tags.split(',').map(tag => tag.trim()) : []`. -/
def parseTags : Option String → List String
  | some s => if s == "" then [] else (jsSplit ',' s).map jsTrim
  | none => []

/-- The document passed to `GalleryItem.create` by `createGalleryItem`. -/
structure GalleryItemDoc where
  title : String
  description : Option String
  album : Option String
  isFeatured : Bool
  status : String
  mediaType : MediaType
  url : String
  thumbnailUrl : Option String
  metadata : Metadata
  tags : List String
  createdBy : String
deriving Repr, DecidableEq

/-- The tail of `createGalleryItem` after the thumbnail stage: upload the
original (the controller passes the bare `req.file.path` string), create
the database row, then `await fs.unlink(req.file.path).catch(console.error)`
and answer 201.  A failure of the original upload or of the create call
propagates through `catchAsync`. -/
def createFinish (env : Env) (st : St) (body : ReqBody) (file : MulterFile)
    (userId : String) (mediaType : MediaType) (metadata : Metadata)
    (thumbnailUrl : Option String) : St × Except ApiErr GalleryItemDoc :=
  match uploadToCloudinary env.mainUpload st (UploadArg.pathStr file.path) "gallery" with
  | (st1, Except.error e) => (st1, Except.error e)
  | (st1, Except.ok result) =>
    match env.dbCreate with
    | Except.error msg => (st1, Except.error (apiErr msg 500))
    | Except.ok _ =>
      let item : GalleryItemDoc :=
        { title := body.title
          description := body.description
          album := body.album
          isFeatured := body.isFeatured == some "true"
          status := jsOrStr body.status "published"
          mediaType := mediaType
          url := result.secure_url
          thumbnailUrl := thumbnailUrl
          metadata := metadata
          tags := parseTags body.tags
          createdBy := userId }
      ({ st1 with fsPaths := st1.fsPaths.filter (fun q => q != file.path) },
        Except.ok item)

/-- Shallow embedding of `galleryController.createGalleryItem` (gallery
controller lines 451-503).  Order of stages mirrors the source: missing
file check, media-type derivation (`'image'` prefix or default `'video'`),
`extractMetadata`, `generateThumbnail`, conditional thumbnail upload (the
bare `thumbnailPath` string is passed to the gateway; on success the local
thumbnail is unlinked with a swallowed error), then the original upload /
record creation tail. -/
def createGalleryItem (env : Env) (st : St) (body : ReqBody)
    (reqFile : Option MulterFile) (userId : String) (now : Nat) :
    St × Except ApiErr GalleryItemDoc :=
  match reqFile with
  | none => (st, Except.error (apiErr "Please upload a file" 400))
  | some file =>
    let mediaType := mediaTypeOf file.mimetype
    let pm := extractMetadata env.inspect st file.path mediaType
    let pt := generateThumbnail env.thumb pm.1 now file.path mediaType
    match pt.2 with
    | some tp =>
      match uploadToCloudinary env.thumbUpload pt.1 (UploadArg.pathStr tp)
          "gallery/thumbnails" with
      | (st1, Except.error e) => (st1, Except.error e)
      | (st1, Except.ok tr) =>
        let st2 : St := { st1 with fsPaths := st1.fsPaths.filter (fun q => q != tp) }
        createFinish env st2 body file userId mediaType pm.2 (some tr.secure_url)
    | none => createFinish env pt.1 body file userId mediaType pm.2 none

/-! ## Batch coordinator: `bulkUploadGalleryItems` -/

/-- The document passed to `GalleryItem.create` by the bulk upload path
(title from the original filename; no description/tags/status fields). -/
structure BulkItemDoc where
  title : String
  album : Option String
  mediaType : MediaType
  url : String
  thumbnailUrl : Option String
  metadata : Metadata
  createdBy : String
deriving Repr, DecidableEq

/-- The JSON body answered by `bulkUploadGalleryItems`: only the succeeded
items are reported — the response carries no list of failures. -/
structure BulkResponse where
  success : Bool
  count : Nat
  data : List BulkItemDoc
deriving Repr, DecidableEq

/-- One staged file of a batch together with the outcomes of the external
calls its run will observe and the millisecond timestamp its
`generateThumbnail` call reads. -/
structure Job where
  file : MulterFile
  env : Env
  now : Nat

/-- Tail of `processFile` after the thumbnail stage (original upload,
create, collect, unlink); any rejection is caught by the per-file handler,
which logs it and yields `null`. -/
def processFileFinish (env : Env) (album : Option String) (userId : String)
    (st : St) (file : MulterFile) (mediaType : MediaType) (metadata : Metadata)
    (thumbnailUrl : Option String) : St × Option BulkItemDoc :=
  match uploadToCloudinary env.mainUpload st (UploadArg.pathStr file.path) "gallery" with
  | (st1, Except.error _) => (st1, none)
  | (st1, Except.ok result) =>
    match env.dbCreate with
    | Except.error _ => (st1, none)
    | Except.ok _ =>
      let item : BulkItemDoc :=
        { title := parsedName file.originalname
          album := album
          mediaType := mediaType
          url := result.secure_url
          thumbnailUrl := thumbnailUrl
          metadata := metadata
          createdBy := userId }
      ({ st1 with fsPaths := st1.fsPaths.filter (fun q => q != file.path) },
        some item)

/-- Shallow embedding of the per-file closure `processFile` inside
`bulkUploadGalleryItems` (lines 666-710): same stages as a single
ingestion, but the whole body is wrapped in a `try/catch` that logs the
error and returns `null`, so one file's failure never aborts its
siblings. -/
def processFile (env : Env) (album : Option String) (userId : String)
    (now : Nat) (st : St) (file : MulterFile) : St × Option BulkItemDoc :=
  let mediaType := mediaTypeOf file.mimetype
  let pm := extractMetadata env.inspect st file.path mediaType
  let pt := generateThumbnail env.thumb pm.1 now file.path mediaType
  match pt.2 with
  | some tp =>
    match uploadToCloudinary env.thumbUpload pt.1 (UploadArg.pathStr tp)
        "gallery/thumbnails" with
    | (st1, Except.error _) => (st1, none)
    | (st1, Except.ok tr) =>
      let st2 : St := { st1 with fsPaths := st1.fsPaths.filter (fun q => q != tp) }
      processFileFinish env album userId st2 file mediaType pm.2 (some tr.secure_url)
  | none => processFileFinish env album userId pt.1 file mediaType pm.2 none

/-- `const concurrencyLimit = 5`. -/
def concurrencyLimit : Nat := 5

/-- Fuel-indexed slicing loop:
`for (let i = 0; i < files.length; i += concurrencyLimit)` collecting the
slices `files.slice(i, i + concurrencyLimit)`.  The fuel (instantiated
with the list length, which the loop never exceeds) makes the recursion
structural. -/
def batchesGo {α : Type} : Nat → List α → List (List α)
  | 0, _ => []
  | Nat.succ _, [] => []
  | Nat.succ fuel, x :: xs =>
      (x :: xs).take concurrencyLimit :: batchesGo fuel ((x :: xs).drop concurrencyLimit)

/-- The successive batches the bulk loop processes. -/
def batches {α : Type} (l : List α) : List (List α) :=
  batchesGo l.length l

/-- One linearization of `await Promise.all(batch.map(processFile))`: the
per-file runs of a batch executed in input order.  (The results a run
produces do not depend on the interleaving — see
`processFile_result_state_independent` — so this linearization is faithful
for the properties proved here.) -/
def runSeq (album : Option String) (userId : String) :
    St → List Job → St × List (Option BulkItemDoc)
  | st, [] => (st, [])
  | st, j :: rest =>
    let p := processFile j.env album userId j.now st j.file
    let q := runSeq album userId p.1 rest
    (q.1, p.2 :: q.2)

/-- Shallow embedding of `galleryController.bulkUploadGalleryItems`
(lines 656-723): reject an empty batch, process the files in batches of
`concurrencyLimit`, collect the non-null results in `uploadedItems`, and
answer `{ success, count, data }` — failed files are only logged. -/
def bulkUploadGalleryItems (album : Option String) (userId : String)
    (st : St) (jobs : List Job) : St × Except ApiErr BulkResponse :=
  if jobs.isEmpty then
    (st, Except.error (apiErr "Please upload files" 400))
  else
    let folded :=
      (batches jobs).foldl
        (fun acc batch =>
          let p := runSeq album userId acc.1 batch
          (p.1, acc.2 ++ p.2))
        (st, ([] : List (Option BulkItemDoc)))
    let uploadedItems := folded.2.reduceOption
    (folded.1,
      Except.ok { success := true, count := uploadedItems.length, data := uploadedItems })

/-! ## Concrete sample data used by the closed witnesses and
counterexamples -/

/-- A gateway environment whose provider call would fail; the guarded calls
below never reach it. -/
def sampleUploadEnv : UploadEnv := { uploadPromise := Except.error "network unreachable" }

/-- Inspector outcomes for a healthy 100×50 jpeg with no exif block. -/
def sampleInspectImageOk : InspectEnv :=
  { sharpMetadata := Except.ok { width := 100, height := 50, format := "jpeg" }
    statSize := Except.ok 1234
    exifParse := ExifParseOutcome.nullResult
    ffprobe := Except.error "ffprobe failed" }

/-- Same image, but the exif parse rejects (corrupt exif block). -/
def sampleInspectExifRaise : InspectEnv :=
  { sampleInspectImageOk with exifParse := ExifParseOutcome.raise "corrupt exif block" }

/-- Probe result of a container holding only an audio stream. -/
def sampleAudioProbe : ProbeData :=
  { streams := [{ codec_type := "audio", width := 0, height := 0, display_aspect_ratio := "" }]
    format := { duration := 12 } }

/-- Inspector outcomes for an audio-only "video" upload. -/
def sampleInspectAudioOnly : InspectEnv :=
  { sampleInspectImageOk with
      sharpMetadata := Except.error "not an image"
      ffprobe := Except.ok sampleAudioProbe }

/-- Inspector outcomes for a pdf: both probes reject. -/
def sampleInspectPdf : InspectEnv :=
  { sharpMetadata := Except.error "unsupported image format"
    statSize := Except.ok 100
    exifParse := ExifParseOutcome.nullResult
    ffprobe := Except.error "ffprobe failed" }

/-- Thumbnailer outcomes for a healthy image. -/
def sampleThumbOk : ThumbEnv :=
  { sharpResize := Except.ok ()
    ffmpegScreenshot := Except.error "no video stream"
    renameOk := Except.ok () }

/-- Thumbnailer outcomes when every attempt fails. -/
def sampleThumbFail : ThumbEnv :=
  { sharpResize := Except.error "corrupt image"
    ffmpegScreenshot := Except.error "no video stream"
    renameOk := Except.error "missing source" }

/-- Full run environment for a healthy staged image. -/
def sampleImageEnv : Env :=
  { inspect := sampleInspectImageOk, thumb := sampleThumbOk
    thumbUpload := sampleUploadEnv, mainUpload := sampleUploadEnv
    dbCreate := Except.ok () }

/-- Full run environment for a staged pdf. -/
def samplePdfEnv : Env :=
  { inspect := sampleInspectPdf, thumb := sampleThumbFail
    thumbUpload := sampleUploadEnv, mainUpload := sampleUploadEnv
    dbCreate := Except.ok () }

/-- A staged jpeg upload. -/
def sampleImageFile : MulterFile :=
  { path := "/backend/uploads/img1.jpg", mimetype := "image/jpeg"
    originalname := "img1.jpg", size := 1234 }

/-- A staged pdf upload. -/
def samplePdfFile : MulterFile :=
  { path := "/backend/uploads/f1.pdf", mimetype := "application/pdf"
    originalname := "f1.pdf", size := 100 }

/-- Initial world: the two staged files exist locally, one object is held
remotely, nothing has been called yet. -/
def sampleSt : St :=
  { fsPaths := ["/backend/uploads/img1.jpg", "/backend/uploads/f1.pdf"]
    uploaded := ["portfolio/gallery/abc"]
    trace := [] }

/-- A batch job for the pdf. -/
def sampleJob : Job := { file := samplePdfFile, env := samplePdfEnv, now := 42 }

/-- A batch job for the image. -/
def sampleImageJob : Job := { file := sampleImageFile, env := sampleImageEnv, now := 500 }

/-- A one-file batch (its only file fails fatally). -/
def sampleJobsOne : List Job := [sampleJob]

/-- A two-file batch (both files fail fatally). -/
def sampleJobsTwo : List Job := [sampleJob, sampleImageJob]

/-- A provider environment where the destroy call answers. -/
def sampleDelEnv : DeleteEnv := { timesOut := false, destroyFails := none }

/-! ## Supporting lemmas -/

/-- The generated thumbnail temp path is never the empty string. -/
theorem thumbTempPath_ne_empty (now : Nat) : (thumbTempPath now == "") = false := by
  have h : thumbTempPath now ≠ "" := by
    intro h
    have h2 := congrArg String.data h
    cases hts : toString now with
    | mk l => rw [thumbTempPath, hts] at h2; simp [String.append] at h2
  simpa using h

/-- When the gateway receives a bare path string — as every call from the
gallery controller does — the size property is `undefined` (so the 5MB
check passes vacuously) and the mimetype property is `undefined` (so the
whitelist check always fails): the call returns an error without touching
the state. -/
theorem uploadToCloudinary_pathStr (env : UploadEnv) (st : St) (p : String) (folder : String) :
    uploadToCloudinary env st (UploadArg.pathStr p) folder
      = (st, Except.error (if p == "" then apiErr "No file provided" 400
          else apiErr "Invalid file type. Only images are allowed" 400)) := by
  cases h : p == "" <;>
    simp [uploadToCloudinary, uploadCatch, UploadArg.jsFalsy, UploadArg.sizeProp,
      UploadArg.mimetypeProp, UploadArg.pathProp, jsGtMax, jsIncludes, h]

/-- Inspecting a video only appends the ffprobe call to the trace; the
filesystem and remote store are untouched. -/
theorem extractMetadata_video_fst (env : InspectEnv) (st : St) (p : String) :
    (extractMetadata env st p MediaType.video).1
      = { st with trace := st.trace ++ ["ffprobe"] } := by
  unfold extractMetadata
  rcases env.ffprobe with _ | probe
  · rfl
  · rcases h : probe.streams.find? (fun s => s.codec_type == "video") with _ | vs <;>
      simp only [h] <;> rcases env.statSize with _ | n <;> rfl

/-- `extractMetadata` never touches the local filesystem. -/
theorem extractMetadata_fsPaths (env : InspectEnv) (st : St) (p : String) (k : MediaType) :
    (extractMetadata env st p k).1.fsPaths = st.fsPaths := by
  cases k <;> unfold extractMetadata
  · rcases env.sharpMetadata with _ | m <;> rcases env.statSize with _ | n <;>
      rcases env.exifParse with e | _ | msg <;> rfl
  · rcases env.ffprobe with _ | probe
    · rfl
    · rcases hf : probe.streams.find? (fun s => s.codec_type == "video") with _ | vs <;>
        simp only [hf] <;> rcases env.statSize with _ | n <;> rfl

/-- `extractMetadata` never touches the remote store. -/
theorem extractMetadata_uploaded (env : InspectEnv) (st : St) (p : String) (k : MediaType) :
    (extractMetadata env st p k).1.uploaded = st.uploaded := by
  cases k <;> unfold extractMetadata
  · rcases env.sharpMetadata with _ | m <;> rcases env.statSize with _ | n <;>
      rcases env.exifParse with e | _ | msg <;> rfl
  · rcases env.ffprobe with _ | probe
    · rfl
    · rcases hf : probe.streams.find? (fun s => s.codec_type == "video") with _ | vs <;>
        simp only [hf] <;> rcases env.statSize with _ | n <;> rfl

/-- Generating a video thumbnail appends exactly the ffmpeg call to the
trace, in every outcome. -/
theorem generateThumbnail_video_trace (env : ThumbEnv) (st : St) (now : Nat) (p : String) :
    (generateThumbnail env st now p MediaType.video).1.trace
      = st.trace ++ ["ffmpeg-screenshots"] := by
  unfold generateThumbnail
  rcases env.ffmpegScreenshot with _ | u
  · rfl
  · rcases env.renameOk with _ | v <;> rfl

/-- Every file other than the fixed ffmpeg scratch path survives
`generateThumbnail`. -/
theorem generateThumbnail_mem_fsPaths (env : ThumbEnv) (st : St) (now : Nat) (p : String)
    (k : MediaType) (x : String) (hx : x ∈ st.fsPaths) (hne : x ≠ ffmpegFixedPath) :
    x ∈ (generateThumbnail env st now p k).1.fsPaths := by
  cases k <;> unfold generateThumbnail
  · rcases env.sharpResize with _ | u
    · exact hx
    · exact List.mem_append_left _ hx
  · rcases env.ffmpegScreenshot with _ | u
    · exact hx
    · rcases env.renameOk with _ | v
      · exact List.mem_append_left _ hx
      · refine List.mem_append_left _ ?_
        refine List.mem_filter.mpr ⟨List.mem_append_left _ hx, ?_⟩
        simpa using hne

/-- `generateThumbnail` never touches the remote store. -/
theorem generateThumbnail_uploaded (env : ThumbEnv) (st : St) (now : Nat) (p : String)
    (k : MediaType) :
    (generateThumbnail env st now p k).1.uploaded = st.uploaded := by
  cases k <;> unfold generateThumbnail
  · rcases env.sharpResize with _ | u <;> rfl
  · rcases env.ffmpegScreenshot with _ | u
    · rfl
    · rcases env.renameOk with _ | v <;> rfl

/-- A produced thumbnail path is always the timestamp-derived temp path. -/
theorem generateThumbnail_some (env : ThumbEnv) (st : St) (now : Nat) (p : String)
    (k : MediaType) (tp : String)
    (h : (generateThumbnail env st now p k).2 = some tp) : tp = thumbTempPath now := by
  cases k <;> unfold generateThumbnail at h
  · rcases hsr : env.sharpResize with _ | u <;> rw [hsr] at h <;> simp_all
  · rcases hff : env.ffmpegScreenshot with _ | u <;> rw [hff] at h
    · simp_all
    · rcases hrn : env.renameOk with _ | v <;> rw [hrn] at h <;> simp_all

/-- The original-upload/create tail of `createGalleryItem` always fails:
the gateway receives the bare `req.file.path` string, whose missing
mimetype fails the whitelist, and the state is returned unchanged. -/
theorem createFinish_eq (env : Env) (st : St) (body : ReqBody) (file : MulterFile)
    (userId : String) (mt : MediaType) (md : Metadata) (tu : Option String) :
    createFinish env st body file userId mt md tu
      = (st, Except.error (if file.path == "" then apiErr "No file provided" 400
          else apiErr "Invalid file type. Only images are allowed" 400)) := by
  unfold createFinish
  rw [uploadToCloudinary_pathStr]

/-- Every `createGalleryItem` run on a present file ends in an error, with
the state exactly as the thumbnail stage left it (the upload stages change
nothing because they fail before any side effect). -/
theorem createGalleryItem_some (env : Env) (st : St) (body : ReqBody) (file : MulterFile)
    (userId : String) (now : Nat) :
    ∃ e, createGalleryItem env st body (some file) userId now
      = ((generateThumbnail env.thumb
            (extractMetadata env.inspect st file.path (mediaTypeOf file.mimetype)).1 now
            file.path (mediaTypeOf file.mimetype)).1, Except.error e) := by
  unfold createGalleryItem
  dsimp only
  rcases hpt : (generateThumbnail env.thumb
      (extractMetadata env.inspect st file.path (mediaTypeOf file.mimetype)).1 now
      file.path (mediaTypeOf file.mimetype)).2 with _ | tp <;> dsimp only
  · rw [createFinish_eq]
    exact ⟨_, rfl⟩
  · rw [uploadToCloudinary_pathStr]
    exact ⟨_, rfl⟩

/-- The bulk tail behaves like the single-item tail, but the per-file catch
turns the error into `null`. -/
theorem processFileFinish_eq (env : Env) (album : Option String) (userId : String)
    (st : St) (file : MulterFile) (mt : MediaType) (md : Metadata) (tu : Option String) :
    processFileFinish env album userId st file mt md tu = (st, none) := by
  unfold processFileFinish
  rw [uploadToCloudinary_pathStr]

/-- A bulk per-file run always yields `null` and leaves the state exactly as
the thumbnail stage left it. -/
theorem processFile_eq (env : Env) (album : Option String) (userId : String)
    (now : Nat) (st : St) (file : MulterFile) :
    processFile env album userId now st file
      = ((generateThumbnail env.thumb
            (extractMetadata env.inspect st file.path (mediaTypeOf file.mimetype)).1 now
            file.path (mediaTypeOf file.mimetype)).1, none) := by
  unfold processFile
  dsimp only
  rcases hpt : (generateThumbnail env.thumb
      (extractMetadata env.inspect st file.path (mediaTypeOf file.mimetype)).1 now
      file.path (mediaTypeOf file.mimetype)).2 with _ | tp <;> dsimp only
  · rw [processFileFinish_eq]
  · rw [uploadToCloudinary_pathStr]

/-- Every batch produced by the slicing loop has at most
`concurrencyLimit` elements. -/
theorem batchesGo_mem_length {α : Type} (fuel : Nat) :
    ∀ (l : List α) (b : List α), b ∈ batchesGo fuel l → b.length ≤ concurrencyLimit := by
  induction fuel with
  | zero => intro l b hb; simp [batchesGo] at hb
  | succ f ih =>
    intro l b hb
    cases l with
    | nil => simp [batchesGo] at hb
    | cons x xs =>
      rw [batchesGo] at hb
      rcases List.mem_cons.mp hb with h | h
      · subst h
        exact List.length_take_le concurrencyLimit (x :: xs)
      · exact ih _ _ h

/-- With enough fuel the slices concatenate back to the input list. -/
theorem batchesGo_flatten {α : Type} (fuel : Nat) :
    ∀ (l : List α), l.length ≤ fuel → (batchesGo fuel l).flatten = l := by
  induction fuel with
  | zero =>
    intro l hl
    have h0 : l = [] := List.length_eq_zero.mp (Nat.le_zero.mp hl)
    subst h0; rfl
  | succ f ih =>
    intro l hl
    cases l with
    | nil => rfl
    | cons x xs =>
      rw [batchesGo, List.flatten]
      rw [ih ((x :: xs).drop concurrencyLimit) (by simp [concurrencyLimit] at hl ⊢; omega)]
      exact List.take_append_drop _ _

/-- The batches of the bulk loop cover exactly the input files in order. -/
theorem batches_flatten {α : Type} (l : List α) : (batches l).flatten = l :=
  batchesGo_flatten l.length l (Nat.le_refl _)

/-- Processing a concatenation is processing the parts in sequence. -/
theorem runSeq_append (album : Option String) (userId : String) (l1 l2 : List Job) :
    ∀ st : St, runSeq album userId st (l1 ++ l2)
      = ((runSeq album userId (runSeq album userId st l1).1 l2).1,
          (runSeq album userId st l1).2 ++ (runSeq album userId (runSeq album userId st l1).1 l2).2) := by
  induction l1 with
  | nil => intro st; simp [runSeq]
  | cons j rest ih =>
    intro st
    simp [runSeq, List.append_eq, ih]

/-- Under the bare-path gateway calls every per-file result of a batch run
is `null`. -/
theorem runSeq_snd (album : Option String) (userId : String) (jobs : List Job) :
    ∀ st : St, (runSeq album userId st jobs).2 = jobs.map (fun _ => none) := by
  induction jobs with
  | nil => intro st; rfl
  | cons j rest ih =>
    intro st
    simp only [runSeq, processFile_eq, List.map_cons, ih]

/-- The batch fold of the bulk loop equals one sequential pass over the
flattened batches. -/
theorem bulkFoldl (album : Option String) (userId : String) (bs : List (List Job)) :
    ∀ (st : St) (acc : List (Option BulkItemDoc)),
      bs.foldl (fun acc2 batch =>
          let p := runSeq album userId acc2.1 batch
          (p.1, acc2.2 ++ p.2)) (st, acc)
        = ((runSeq album userId st bs.flatten).1, acc ++ (runSeq album userId st bs.flatten).2) := by
  induction bs with
  | nil => intro st acc; simp [runSeq]
  | cons b rest ih =>
    intro st acc
    simp only [List.foldl_cons, List.flatten_cons, ih, runSeq_append, List.append_assoc]

/-- Reducing a list of `none`s gives the empty list. -/
theorem reduceOption_replicate_none {β : Type} (n : Nat) :
    (List.replicate n (none : Option β)).reduceOption = [] := by
  induction n with
  | zero => rfl
  | succ m ih => simpa [List.replicate, List.reduceOption] using ih

/-! ## Claim theorems, counterexamples and witnesses -/

/-- C1 (corrected): the spec claims a staged file whose MIME prefix is
neither `image` nor `video` is rejected at `Staged` with
`UnsupportedMediaKind` before any external call.  The code has no such
rejection and no such error: `fileType === 'image' ? 'image' : 'video'`
silently defaults every non-image prefix — `application/pdf` included —
to the video kind, and the run proceeds to invoke ffprobe and ffmpeg; it
fails only later, at the storage gateway's own type check.  Amended claim
proved here: for every staged file with a non-image MIME prefix the
derived media kind is `video`, the run issues the ffprobe and ffmpeg
external calls, and it ends in an error that is the gateway's, not a
pre-flight rejection. -/
theorem C1_nonimage_mime_defaults_to_video (env : Env) (st : St) (body : ReqBody)
    (file : MulterFile) (userId : String) (now : Nat)
    (h : mimePrefix file.mimetype ≠ "image") :
    mediaTypeOf file.mimetype = MediaType.video ∧
    (createGalleryItem env st body (some file) userId now).1.trace
      = st.trace ++ ["ffprobe", "ffmpeg-screenshots"] ∧
    ∃ e, (createGalleryItem env st body (some file) userId now).2 = Except.error e := by
  have hmt : mediaTypeOf file.mimetype = MediaType.video := by
    unfold mediaTypeOf
    rw [if_neg (by simpa using h)]
  obtain ⟨e, heq⟩ := createGalleryItem_some env st body file userId now
  refine ⟨hmt, ?_, ⟨e, by rw [heq]⟩⟩
  rw [heq]
  dsimp only
  rw [hmt, generateThumbnail_video_trace, extractMetadata_video_fst]
  simp

/-- C1 counterexample: ingesting a staged `application/pdf` file derives
media kind `video` (a default, not a rejection), issues the ffprobe
external call, and fails with the storage gateway's type error — not with
any `UnsupportedMediaKind` pre-flight failure at `Staged`. -/
theorem C1_pdf_defaulted_not_rejected :
    mediaTypeOf "application/pdf" = MediaType.video ∧
    "ffprobe" ∈ (createGalleryItem samplePdfEnv sampleSt {} (some samplePdfFile) "u1" 42).1.trace ∧
    (createGalleryItem samplePdfEnv sampleSt {} (some samplePdfFile) "u1" 42).2
      = Except.error (apiErr "Invalid file type. Only images are allowed" 400) :=
  ⟨by decide, by decide, by rfl⟩

/-- C1 witness: the amended claim instantiated on the concrete pdf run. -/
theorem C1_nonimage_mime_defaults_to_video_witness :
    mimePrefix samplePdfFile.mimetype ≠ "image" ∧
    (mediaTypeOf samplePdfFile.mimetype = MediaType.video ∧
      (createGalleryItem samplePdfEnv sampleSt {} (some samplePdfFile) "u1" 42).1.trace
        = sampleSt.trace ++ ["ffprobe", "ffmpeg-screenshots"] ∧
      ∃ e, (createGalleryItem samplePdfEnv sampleSt {} (some samplePdfFile) "u1" 42).2
        = Except.error e) :=
  ⟨by decide, C1_nonimage_mime_defaults_to_video samplePdfEnv sampleSt {} samplePdfFile "u1" 42
    (by decide)⟩

/-- C2 (corrected): the spec claims the batch returns a report with
`len(succeeded) = N-K` and `len(failed) = K`.  The code does collect the
succeeded items (`uploadedItems`, length `N-K`) and per-file errors are
caught so siblings continue, but there is no failed list at all: a failed
file is logged to the console and omitted from the response.  Moreover
every per-file run fails its upload (the gateway receives a bare path
string), so `K = N`.  Amended claim proved here: a nonempty batch is
processed in full — the final state is the sequential fold of every
per-file run, no failure cancels a sibling — and the response is always
`{ success: true, count: 0, data: [] }`, reporting only succeeded items
and carrying no record of the failures. -/
theorem C2_bulk_reports_only_succeeded (album : Option String) (userId : String)
    (st : St) (jobs : List Job) (h : jobs ≠ []) :
    bulkUploadGalleryItems album userId st jobs
      = ((runSeq album userId st jobs).1,
          Except.ok { success := true, count := 0, data := [] }) := by
  unfold bulkUploadGalleryItems
  rw [if_neg (by simpa [List.isEmpty_iff] using h)]
  dsimp only
  rw [bulkFoldl, batches_flatten, runSeq_snd]
  simp [reduceOption_replicate_none]

/-- C2 counterexample: a batch with one fatal failure and a batch with two
fatal failures produce identical responses, so the response cannot contain
one entry per failure — `len(failed) = K` is not reported anywhere. -/
theorem C2_batch_report_drops_failures :
    (bulkUploadGalleryItems none "u1" sampleSt sampleJobsOne).2
      = (bulkUploadGalleryItems none "u1" sampleSt sampleJobsTwo).2 ∧
    sampleJobsOne.length ≠ sampleJobsTwo.length :=
  ⟨by rfl, by decide⟩

/-- C2 witness: the amended claim instantiated on the concrete two-file
batch. -/
theorem C2_bulk_reports_only_succeeded_witness :
    sampleJobsTwo ≠ [] ∧
    bulkUploadGalleryItems none "u1" sampleSt sampleJobsTwo
      = ((runSeq none "u1" sampleSt sampleJobsTwo).1,
          Except.ok { success := true, count := 0, data := [] }) :=
  ⟨List.cons_ne_nil _ _,
    C2_bulk_reports_only_succeeded none "u1" sampleSt sampleJobsTwo (List.cons_ne_nil _ _)⟩

/-- C3 (corrected): the spec claims that after any `Ingest` call, success
or failure, the staged file and any generated thumbnail are gone from
disk.  In the code the unlink of `req.file.path` is only reached after a
successful original upload and record creation, and the unlink of the
thumbnail only after a successful thumbnail upload; on the failure exits
nothing is cleaned up — and since the gateway is handed bare path strings,
every run exits through a failure path with the staged file (and any
generated thumbnail) still on disk.  Amended claim proved here: every
`createGalleryItem` run on a staged file ends in an error, and the staged
file still exists afterwards (assuming it is not the fixed ffmpeg scratch
path, the only path the thumbnail stage ever removes). -/
theorem C3_staged_file_survives_every_exit (env : Env) (st : St) (body : ReqBody)
    (file : MulterFile) (userId : String) (now : Nat)
    (hmem : file.path ∈ st.fsPaths) (hne : file.path ≠ ffmpegFixedPath) :
    (∃ e, (createGalleryItem env st body (some file) userId now).2 = Except.error e) ∧
    file.path ∈ (createGalleryItem env st body (some file) userId now).1.fsPaths := by
  obtain ⟨e, heq⟩ := createGalleryItem_some env st body file userId now
  refine ⟨⟨e, by rw [heq]⟩, ?_⟩
  rw [heq]
  dsimp only
  apply generateThumbnail_mem_fsPaths
  · rw [extractMetadata_fsPaths]; exact hmem
  · exact hne

/-- C3 counterexample: a run that generated a thumbnail and then exited
with the thumbnail-upload error leaves both the staged original and the
generated thumbnail on disk, contradicting the cleanup-on-every-path
claim. -/
theorem C3_cleanup_skipped_on_failure_exit :
    (createGalleryItem sampleImageEnv sampleSt {} (some sampleImageFile) "u1" 500).2
      = Except.error (apiErr "Invalid file type. Only images are allowed" 400) ∧
    "/backend/uploads/img1.jpg"
      ∈ (createGalleryItem sampleImageEnv sampleSt {} (some sampleImageFile) "u1" 500).1.fsPaths ∧
    "/tmp/thumb-500.jpg"
      ∈ (createGalleryItem sampleImageEnv sampleSt {} (some sampleImageFile) "u1" 500).1.fsPaths :=
  ⟨by rfl, by decide, by decide⟩

/-- C3 witness: the amended claim instantiated on the concrete image run. -/
theorem C3_staged_file_survives_every_exit_witness :
    (sampleImageFile.path ∈ sampleSt.fsPaths ∧ sampleImageFile.path ≠ ffmpegFixedPath) ∧
    ((∃ e, (createGalleryItem sampleImageEnv sampleSt {} (some sampleImageFile) "u1" 500).2
        = Except.error e) ∧
      sampleImageFile.path
        ∈ (createGalleryItem sampleImageEnv sampleSt {} (some sampleImageFile) "u1" 500).1.fsPaths) :=
  ⟨⟨by decide, by decide⟩,
    C3_staged_file_survives_every_exit sampleImageEnv sampleSt {} sampleImageFile "u1" 500
      (by decide) (by decide)⟩

/-- C4 (corrected): the spec claims that absence of a thumbnail is never
fatal — in particular that a failed thumbnail upload still lets the run
reach terminal success with `thumbnailUrl = null`.  In the code only the
generation half is true: `generateThumbnail` failures are caught and yield
`null`, and the run continues with `thumbnailUrl = null`; but when a
thumbnail was generated, `uploadToCloudinary(thumbnailPath, ...)` is
awaited with no handler, so its failure propagates through `catchAsync`
and the run fails — and it always fails, because the gateway receives the
bare path string.  Amended claim proved here: if no thumbnail is produced
the run equals the continuation with `thumbnailUrl = none`; if a thumbnail
is produced the run fails with the gateway's type error instead of
reaching success. -/
theorem C4_thumbnail_stage_dichotomy (env : Env) (st : St) (body : ReqBody)
    (file : MulterFile) (userId : String) (now : Nat) :
    ((generateThumbnail env.thumb
        (extractMetadata env.inspect st file.path (mediaTypeOf file.mimetype)).1 now
        file.path (mediaTypeOf file.mimetype)).2 = none →
      createGalleryItem env st body (some file) userId now
        = createFinish env
            (generateThumbnail env.thumb
              (extractMetadata env.inspect st file.path (mediaTypeOf file.mimetype)).1 now
              file.path (mediaTypeOf file.mimetype)).1
            body file userId (mediaTypeOf file.mimetype)
            (extractMetadata env.inspect st file.path (mediaTypeOf file.mimetype)).2 none) ∧
    (∀ tp, (generateThumbnail env.thumb
        (extractMetadata env.inspect st file.path (mediaTypeOf file.mimetype)).1 now
        file.path (mediaTypeOf file.mimetype)).2 = some tp →
      (createGalleryItem env st body (some file) userId now).2
        = Except.error (apiErr "Invalid file type. Only images are allowed" 400)) := by
  constructor
  · intro h0
    unfold createGalleryItem
    dsimp only
    rw [h0]
  · intro tp htp
    have htp2 := generateThumbnail_some env.thumb _ now file.path _ tp htp
    unfold createGalleryItem
    dsimp only
    rw [htp]
    dsimp only
    rw [uploadToCloudinary_pathStr]
    subst htp2
    simp [thumbTempPath_ne_empty]

/-- C4 counterexample: a run in which a thumbnail was generated and its
upload failed returns an error — it does not reach terminal success with
`thumbnailUrl = null` as the claim requires. -/
theorem C4_thumbnail_upload_failure_fatal :
    (generateThumbnail sampleImageEnv.thumb
        (extractMetadata sampleImageEnv.inspect sampleSt sampleImageFile.path
          (mediaTypeOf sampleImageFile.mimetype)).1 500 sampleImageFile.path
        (mediaTypeOf sampleImageFile.mimetype)).2 = some "/tmp/thumb-500.jpg" ∧
    (createGalleryItem sampleImageEnv sampleSt {} (some sampleImageFile) "u1" 500).2
      = Except.error (apiErr "Invalid file type. Only images are allowed" 400) :=
  ⟨by rfl, by rfl⟩

/-- C4 witness: the fatal half of the amended claim instantiated on a
concrete run that generated a thumbnail. -/
theorem C4_thumbnail_stage_dichotomy_witness :
    (generateThumbnail sampleImageEnv.thumb
        (extractMetadata sampleImageEnv.inspect sampleSt sampleImageFile.path
          (mediaTypeOf sampleImageFile.mimetype)).1 600 sampleImageFile.path
        (mediaTypeOf sampleImageFile.mimetype)).2 = some "/tmp/thumb-600.jpg" ∧
    (createGalleryItem sampleImageEnv sampleSt {} (some sampleImageFile) "u1" 600).2
      = Except.error (apiErr "Invalid file type. Only images are allowed" 400) :=
  ⟨by rfl,
    (C4_thumbnail_stage_dichotomy sampleImageEnv sampleSt {} sampleImageFile "u1" 600).2
      "/tmp/thumb-600.jpg" (by rfl)⟩

/-- C5 (corrected): the spec claims that when structural inspection
succeeds but exif extraction fails — "missing or corrupt EXIF block" —
the returned metadata still has width/height/format populated with `Exif`
simply absent.  In the code this only holds when `exifr.parse` resolves to
null/undefined (missing exif); when the parse throws (corrupt exif), the
single `try/catch` around the whole of `extractMetadata` discards the
already-computed structural fields and returns `{}`.  Amended claim proved
here: with sharp metadata and stat succeeding, a null exif result keeps
the structural fields (exif absent), while a thrown exif parse yields the
empty metadata object; in neither case does `extractMetadata` raise. -/
theorem C5_exif_outcome_dichotomy (env : InspectEnv) (st : St) (p : String)
    (m : SharpMeta) (n : Nat)
    (hs : env.sharpMetadata = Except.ok m) (hn : env.statSize = Except.ok n) :
    (env.exifParse = ExifParseOutcome.nullResult →
      (extractMetadata env st p MediaType.image).2
        = { width := some m.width, height := some m.height, format := some m.format,
            size := some n, aspectRatio := some (AspectRatio.ofDims m.width m.height) }) ∧
    (∀ msg, env.exifParse = ExifParseOutcome.raise msg →
      (extractMetadata env st p MediaType.image).2 = ({} : Metadata)) := by
  constructor
  · intro hx
    unfold extractMetadata
    rw [hs, hn, hx]
  · intro msg hx
    unfold extractMetadata
    rw [hs, hn, hx]

/-- C5 counterexample: with a healthy 100×50 jpeg whose exif parse throws,
`extractMetadata` returns the empty object — width and format are not
populated, contradicting the claim. -/
theorem C5_exif_raise_discards_structural_fields :
    (extractMetadata sampleInspectExifRaise sampleSt "/backend/uploads/img1.jpg"
        MediaType.image).2.width = none ∧
    (extractMetadata sampleInspectExifRaise sampleSt "/backend/uploads/img1.jpg"
        MediaType.image).2.format = none ∧
    (extractMetadata sampleInspectExifRaise sampleSt "/backend/uploads/img1.jpg"
        MediaType.image).2 = ({} : Metadata) :=
  ⟨by rfl, by rfl, by rfl⟩

/-- C5 witness: the missing-exif half of the amended claim instantiated on
the concrete image inspection. -/
theorem C5_exif_outcome_dichotomy_witness :
    (sampleInspectImageOk.sharpMetadata
        = Except.ok { width := 100, height := 50, format := "jpeg" } ∧
      sampleInspectImageOk.statSize = Except.ok 1234 ∧
      sampleInspectImageOk.exifParse = ExifParseOutcome.nullResult) ∧
    (extractMetadata sampleInspectImageOk sampleSt "/backend/uploads/img1.jpg"
        MediaType.image).2
      = { width := some 100, height := some 50, format := some "jpeg",
          size := some 1234, aspectRatio := some (AspectRatio.ofDims 100 50) } :=
  ⟨⟨rfl, rfl, rfl⟩,
    (C5_exif_outcome_dichotomy sampleInspectImageOk sampleSt "/backend/uploads/img1.jpg"
      { width := 100, height := 50, format := "jpeg" } 1234 rfl rfl).1 rfl⟩

/-- C6 (confirmed): the bulk loop `for (i = 0; i < files.length; i +=
concurrencyLimit)` awaits `Promise.all` over each slice before starting
the next, so the per-file runs in flight at any instant are exactly the
files of one slice; every slice has at most `concurrencyLimit = 5`
elements, hence at most 5 ingestion runs (and their inspect/upload calls)
are ever in flight simultaneously. -/
theorem C6_batch_size_bounded_by_concurrencyLimit (jobs : List Job) (b : List Job)
    (hb : b ∈ batches jobs) : b.length ≤ concurrencyLimit :=
  batchesGo_mem_length jobs.length jobs b hb

/-- C6 witness: in a seven-file batch the first dispatched slice has five
files, within the bound. -/
theorem C6_batch_size_bounded_by_concurrencyLimit_witness :
    (List.replicate 5 sampleJob ∈ batches (List.replicate 7 sampleJob)) ∧
    (List.replicate 5 sampleJob).length ≤ concurrencyLimit := by
  have hmem : List.replicate 5 sampleJob ∈ batches (List.replicate 7 sampleJob) :=
    List.mem_cons_self _ _
  exact ⟨hmem, C6_batch_size_bounded_by_concurrencyLimit _ _ hmem⟩

/-- C7 (confirmed): when the provider answers (no timeout, no transport
failure) and the id is nonempty, calling `deleteFromCloudinary` twice in
succession on the same id succeeds both times from the caller's point of
view: the first call returns the provider's `ok` (or `not found` if the
object was already absent) and the second returns `not found`, which the
function passes through with only a warning — it never converts it to the
`error` result its catch block produces.  Deletion is idempotent for the
caller. -/
theorem C7_delete_twice_succeeds (env1 env2 : DeleteEnv) (st : St) (publicId : String)
    (hid : publicId ≠ "")
    (h1t : env1.timesOut = false) (h1f : env1.destroyFails = none)
    (h2t : env2.timesOut = false) (h2f : env2.destroyFails = none) :
    ((deleteFromCloudinary env1 st publicId).2.result = "ok" ∨
      (deleteFromCloudinary env1 st publicId).2.result = "not found") ∧
    (deleteFromCloudinary env2 (deleteFromCloudinary env1 st publicId).1 publicId).2.result
      = "not found" := by
  have hbeq : (publicId == "") = false := by simpa using hid
  by_cases hmem : parsePublicId publicId ∈ st.uploaded
  · unfold deleteFromCloudinary
    simp [hbeq, h1t, h1f, h2t, h2f, hmem, List.mem_filter]
  · unfold deleteFromCloudinary
    simp [hbeq, h1t, h1f, h2t, h2f, hmem]

/-- C7 witness: deleting the one stored object twice — the first call
answers `ok`, the second `not found`, neither is the error result. -/
theorem C7_delete_twice_succeeds_witness :
    ("portfolio/gallery/abc" ≠ "" ∧ sampleDelEnv.timesOut = false ∧
      sampleDelEnv.destroyFails = none) ∧
    (((deleteFromCloudinary sampleDelEnv sampleSt "portfolio/gallery/abc").2.result = "ok" ∨
      (deleteFromCloudinary sampleDelEnv sampleSt "portfolio/gallery/abc").2.result
        = "not found") ∧
      (deleteFromCloudinary sampleDelEnv
          (deleteFromCloudinary sampleDelEnv sampleSt "portfolio/gallery/abc").1
          "portfolio/gallery/abc").2.result = "not found") :=
  ⟨⟨by decide, rfl, rfl⟩,
    C7_delete_twice_succeeds sampleDelEnv sampleDelEnv sampleSt "portfolio/gallery/abc"
      (by decide) rfl rfl rfl rfl⟩

/-- C8 (corrected): the spec claims that a "video" whose probe finds no
stream with `codec_type == 'video'` yields metadata with only
`format`/`sizeBytes` populated.  In the code `metadata.format` and
`metadata.size` are assigned inside `if (videoStream) { ... }`, so when no
video stream exists nothing at all is assigned: the call returns
successfully, but with the completely empty metadata object.  Amended
claim proved here: a successful probe with no video stream makes
`extractMetadata` return `{}` — success, with no field populated, not
even format or size. -/
theorem C8_no_stream_returns_empty_metadata (env : InspectEnv) (st : St) (p : String)
    (probe : ProbeData)
    (hp : env.ffprobe = Except.ok probe)
    (hs : probe.streams.find? (fun s => s.codec_type == "video") = none) :
    (extractMetadata env st p MediaType.video).2 = ({} : Metadata) := by
  unfold extractMetadata
  rw [hp]
  dsimp only
  rw [hs]

/-- C8 counterexample: for an audio-only container the returned metadata
has `format = none` and `size = none`, contradicting the claim that
exactly those two fields are populated. -/
theorem C8_no_stream_leaves_format_size_unset :
    (extractMetadata sampleInspectAudioOnly sampleSt "/backend/uploads/clip.mp4"
        MediaType.video).2.format = none ∧
    (extractMetadata sampleInspectAudioOnly sampleSt "/backend/uploads/clip.mp4"
        MediaType.video).2.size = none :=
  ⟨by rfl, by rfl⟩

/-- C8 witness: the amended claim instantiated on the audio-only probe. -/
theorem C8_no_stream_returns_empty_metadata_witness :
    (sampleInspectAudioOnly.ffprobe = Except.ok sampleAudioProbe ∧
      sampleAudioProbe.streams.find? (fun s => s.codec_type == "video") = none) ∧
    (extractMetadata sampleInspectAudioOnly sampleSt "/backend/uploads/clip.mp4"
        MediaType.video).2 = ({} : Metadata) :=
  ⟨⟨rfl, by rfl⟩,
    C8_no_stream_returns_empty_metadata sampleInspectAudioOnly sampleSt
      "/backend/uploads/clip.mp4" sampleAudioProbe rfl (by rfl)⟩

/-- C9 (corrected): the spec claims every `GenerateThumbnail` call writes
to a fresh, uniquely named temp path using a random or timestamp+random
suffix, so concurrent calls never collide.  The code's temp path is
``path.join('/tmp', `thumb-${Date.now()}.jpg`)`` — a millisecond timestamp
with no random component (and the video branch additionally stages through
the fixed shared path `/tmp/thumbnail-1.jpg`).  Amended claim proved here:
the produced path is a function of the observed timestamp alone, so any
two calls that observe the same `Date.now()` value and produce a
thumbnail produce the identical path — concurrent same-millisecond calls
collide. -/
theorem C9_thumb_path_depends_only_on_timestamp (env1 env2 : ThumbEnv) (st1 st2 : St)
    (now : Nat) (p1 p2 : String) (k1 k2 : MediaType) (tp1 tp2 : String)
    (h1 : (generateThumbnail env1 st1 now p1 k1).2 = some tp1)
    (h2 : (generateThumbnail env2 st2 now p2 k2).2 = some tp2) :
    tp1 = thumbTempPath now ∧ tp2 = thumbTempPath now ∧ tp1 = tp2 := by
  have e1 := generateThumbnail_some env1 st1 now p1 k1 tp1 h1
  have e2 := generateThumbnail_some env2 st2 now p2 k2 tp2 h2
  exact ⟨e1, e2, e1.trans e2.symm⟩

/-- C9 counterexample: two calls on distinct source files in the same
millisecond both write `/tmp/thumb-777.jpg` — distinct concurrent calls
collide on the same temp path. -/
theorem C9_same_millisecond_calls_collide :
    (generateThumbnail sampleThumbOk sampleSt 777 "/backend/uploads/a.jpg" MediaType.image).2
      = some "/tmp/thumb-777.jpg" ∧
    (generateThumbnail sampleThumbOk sampleSt 777 "/backend/uploads/b.png" MediaType.image).2
      = some "/tmp/thumb-777.jpg" ∧
    "/backend/uploads/a.jpg" ≠ "/backend/uploads/b.png" :=
  ⟨by rfl, by rfl, by decide⟩

/-- C9 witness: the amended claim instantiated on the two colliding
calls. -/
theorem C9_thumb_path_depends_only_on_timestamp_witness :
    ((generateThumbnail sampleThumbOk sampleSt 777 "/backend/uploads/a.jpg" MediaType.image).2
        = some "/tmp/thumb-777.jpg" ∧
      (generateThumbnail sampleThumbOk sampleSt 777 "/backend/uploads/b.png" MediaType.image).2
        = some "/tmp/thumb-777.jpg") ∧
    "/tmp/thumb-777.jpg" = thumbTempPath 777 :=
  ⟨⟨by rfl, by rfl⟩,
    (C9_thumb_path_depends_only_on_timestamp sampleThumbOk sampleThumbOk sampleSt sampleSt 777
      "/backend/uploads/a.jpg" "/backend/uploads/b.png" MediaType.image MediaType.image
      "/tmp/thumb-777.jpg" "/tmp/thumb-777.jpg" (by rfl) (by rfl)).1⟩

/-- C10 (confirmed): any `uploadToCloudinary` call whose file argument
carries a mimetype outside the image whitelist — including the
`undefined` mimetype of a bare path string, which is exactly what the
gallery pipeline passes for video originals and thumbnails — or a size
over 5MB, returns an error before the provider call: nothing is uploaded
(the remote store and the call trace are unchanged).  In particular no
video can ever be promoted through this gateway. -/
theorem C10_gateway_rejects_nonwhitelisted_or_oversized :
    (∀ p, (UploadArg.pathStr p).mimetypeProp = none) ∧
    ∀ (env : UploadEnv) (st : St) (file : UploadArg) (folder : String),
      (jsIncludes allowedTypes file.mimetypeProp = false ∨ jsGtMax file.sizeProp = true) →
      (∃ e, (uploadToCloudinary env st file folder).2 = Except.error e) ∧
      (uploadToCloudinary env st file folder).1.uploaded = st.uploaded ∧
      (uploadToCloudinary env st file folder).1.trace = st.trace := by
  refine ⟨fun p => rfl, ?_⟩
  intro env st file folder hcond
  cases file with
  | pathStr p =>
    rw [uploadToCloudinary_pathStr]
    exact ⟨⟨_, rfl⟩, rfl, rfl⟩
  | fileObj f =>
    unfold uploadToCloudinary
    simp only [UploadArg.jsFalsy, Bool.false_eq_true, if_false]
    cases hgt : jsGtMax (UploadArg.fileObj f).sizeProp with
    | true =>
      simp only [if_pos rfl, uploadCatch, UploadArg.pathProp]
      by_cases hp : f.path ∈ st.fsPaths <;> simp [hp]
    | false =>
      have hinc : jsIncludes allowedTypes (UploadArg.fileObj f).mimetypeProp = false := by
        rcases hcond with h | h
        · exact h
        · rw [hgt] at h; exact absurd h (by simp)
      simp only [hgt, Bool.false_eq_true, if_false, hinc, Bool.not_false, if_pos rfl,
        uploadCatch, UploadArg.pathProp]
      by_cases hp : f.path ∈ st.fsPaths <;> simp [hp]

/-- C10 witness: uploading a video original the way the pipeline does —
as a bare path string — is rejected with nothing uploaded. -/
theorem C10_gateway_rejects_nonwhitelisted_or_oversized_witness :
    (jsIncludes allowedTypes (UploadArg.pathStr "/backend/uploads/video.mp4").mimetypeProp
      = false) ∧
    ((∃ e, (uploadToCloudinary sampleUploadEnv sampleSt
        (UploadArg.pathStr "/backend/uploads/video.mp4") "gallery").2 = Except.error e) ∧
    (uploadToCloudinary sampleUploadEnv sampleSt
        (UploadArg.pathStr "/backend/uploads/video.mp4") "gallery").1.uploaded
      = sampleSt.uploaded ∧
    (uploadToCloudinary sampleUploadEnv sampleSt
        (UploadArg.pathStr "/backend/uploads/video.mp4") "gallery").1.trace
      = sampleSt.trace) :=
  ⟨by rfl,
    C10_gateway_rejects_nonwhitelisted_or_oversized.2 sampleUploadEnv sampleSt
      (UploadArg.pathStr "/backend/uploads/video.mp4") "gallery" (Or.inl (by rfl))⟩

end Goklyn
